import Mathlib

/-!
Shallow embedding of `src/roboeyes_pygame.py` (the RoboEyes pygame engine:
mood state, timed-step sequences, micro-animations, and the per-frame
geometry interpolation of `RoboEyes.update`).

Modelling notes (all traced from the source):

* Python integers are `Int`.  Python floor division `//` is `Int.fdiv`
  and Python `%` (always used here with a positive modulus) is `Int.emod`.
* The clock `pygame.time.get_ticks()` is passed explicitly as a `now`
  argument to every operation that reads it.
* The results of `random.randint(0, v)` inside `update` (auto-blink
  jitter, idle target x/y, idle jitter) are passed in as oracle arguments
  `rb rix riy rii`; theorems quantify over them, which over-approximates
  the `randint` ranges.
* The only callback this engine ever stores in a `StepData` is the
  `reopen` closure created by `RoboEyes._schedule_open`, which captures
  two booleans `left`/`right`; a step therefore stores those two booleans
  (`cbLeft`, `cbRight`) and firing a step applies `reopen`.
* Fields with a leading underscore in Python are modelled without it:
  `_mood ↦ mood`, `_curious ↦ curious`, `_cyclops ↦ cyclops`,
  `_confused ↦ confused`, `_laugh ↦ laughing`, `_wink_left ↦ wink_left`,
  `_wink_right ↦ wink_right`, `_next_blink ↦ next_blink`,
  `_next_idle ↦ next_idle`, `Sequence._start ↦ Sequence.start`.
* Purely visual state and code are omitted because no engine field read
  outside the draw section depends on them: `surface`, `bgcolor`,
  `fgcolor`, `cute`, `sclera_color`, `pupil_color`, `outline_color`,
  the write-only `eye_l_y_default`, the whole draw section of `update`
  (from `l_extra = r_extra = 0` on), and the `position` compass setter,
  none of which any verified property mentions.
* The sequence callbacks never touch the `sequences` list itself, so
  threading the engine state through `seqsUpdate` and writing the updated
  list back at the end (`applySequences`) matches the in-place Python
  mutation.
-/

namespace RoboPy

/-- Mood constant `DEFAULT = 0`. -/
def DEFAULT : Int := 0

/-- Mood constant `TIRED = 1`. -/
def TIRED : Int := 1

/-- Mood constant `ANGRY = 2`. -/
def ANGRY : Int := 2

/-- Mood constant `HAPPY = 3`. -/
def HAPPY : Int := 3

/-- Mood constant `FROZEN = 4`. -/
def FROZEN : Int := 4

/-- Mood constant `SCARY = 5`. -/
def SCARY : Int := 5

/-- Mood constant `CURIOUS = 6`. -/
def CURIOUS : Int := 6

/-- Mood constant `SAD = 7`. -/
def SAD : Int := 7

/-- `StepData` from the source: one timed step of a sequence.  The stored
callback is always `_schedule_open`'s `reopen(left, right)` closure, so the
two captured booleans are stored in `cbLeft`/`cbRight`. -/
structure StepData where
  done : Bool
  ms_timing : Int
  cbLeft : Bool
  cbRight : Bool
deriving DecidableEq

/-- `Sequence` from the source: a named list of steps sharing one optional
start timestamp (`_start`). -/
structure Sequence where
  name : String
  steps : List StepData
  start : Option Int
deriving DecidableEq

/-- The engine state: every `RoboEyes.__init__` field that any non-drawing
code reads (see the module comment for the omitted visual-only fields). -/
structure RoboEyes where
  screen_width : Int
  screen_height : Int
  frame_interval : Int
  fps_timer : Int
  space_between_default : Int
  space_between_current : Int
  space_between_next : Int
  eye_l_width_default : Int
  eye_l_height_default : Int
  eye_r_width_default : Int
  eye_r_height_default : Int
  eye_l_width_current : Int
  eye_l_height_current : Int
  eye_r_width_current : Int
  eye_r_height_current : Int
  eye_l_width_next : Int
  eye_l_height_next : Int
  eye_r_width_next : Int
  eye_r_height_next : Int
  eye_l_radius_default : Int
  eye_r_radius_default : Int
  eye_l_radius_current : Int
  eye_r_radius_current : Int
  eye_l_radius_next : Int
  eye_r_radius_next : Int
  eye_l_x : Int
  eye_l_y : Int
  eye_r_x : Int
  eye_r_y : Int
  eye_l_x_next : Int
  eye_l_y_next : Int
  eye_r_x_next : Int
  eye_r_y_next : Int
  mood : Int
  tired : Bool
  angry : Bool
  happy : Bool
  curious : Bool
  cyclops : Bool
  sad : Bool
  eye_l_open : Bool
  eye_r_open : Bool
  autoblinker : Bool
  blink_interval : Int
  blink_interval_variation : Int
  next_blink : Int
  idle : Bool
  idle_interval : Int
  idle_interval_variation : Int
  next_idle : Int
  confused : Bool
  laughing : Bool
  confused_animation_timer : Int
  laugh_animation_timer : Int
  confused_duration : Int
  laugh_duration : Int
  wink_left : Bool
  wink_right : Bool
  wink_timer : Int
  wink_duration : Int
  sequences : List Sequence
deriving DecidableEq

/-- Python truthiness of an optional-boolean argument (`None` is falsy). -/
def pyTruthy : Option Bool → Bool
  | none => false
  | some b => b

/-- The engine's interpolation step (`lerp` inside `update`):
`(a + b) // 2` with Python floor division. -/
def lerp (a b : Int) : Int := (a + b).fdiv 2

/-- The `reopen` callback closed over by `RoboEyes._schedule_open`:
restores the default height and open flag of each selected eye,
skipping the right eye in cyclops mode. -/
def reopen (left right : Bool) (robo : RoboEyes) : RoboEyes :=
  let r1 := if left then
    {robo with eye_l_height_next := robo.eye_l_height_default, eye_l_open := true}
  else robo
  if right && !r1.cyclops then
    {r1 with eye_r_height_next := r1.eye_r_height_default, eye_r_open := true}
  else r1

/-- `StepData.update(ticks)`: fire the callback and mark the step done on
the first call where `ticks - start ≥ ms_timing`; a done step does
nothing.  The owner sequence's `_start` is passed as `seqStart`. -/
def StepData.update (st : StepData) (seqStart now : Int) (robo : RoboEyes) :
    StepData × RoboEyes :=
  if st.done then (st, robo)
  else if now - seqStart < st.ms_timing then (st, robo)
  else ({st with done := true}, reopen st.cbLeft st.cbRight robo)

/-- The loop body of `Sequence.update`: run every step in order, threading
the engine state through the callbacks. -/
def stepsUpdate (seqStart now : Int) :
    List StepData → RoboEyes → List StepData × RoboEyes
  | [], robo => ([], robo)
  | st :: rest, robo =>
      let p := st.update seqStart now robo
      let q := stepsUpdate seqStart now rest p.2
      (p.1 :: q.1, q.2)

/-- `Sequence.update(ticks)`: a sequence with no start time does nothing,
otherwise every step is visited. -/
def Sequence.update (sq : Sequence) (now : Int) (robo : RoboEyes) :
    Sequence × RoboEyes :=
  match sq.start with
  | none => (sq, robo)
  | some t0 =>
      let p := stepsUpdate t0 now sq.steps robo
      ({sq with steps := p.1}, p.2)

/-- `Sequence.done` property: true when never started, else when all
steps are done. -/
def Sequence.done (sq : Sequence) : Bool :=
  match sq.start with
  | none => true
  | some _ => sq.steps.all (fun st => st.done)

/-- `Sequence.step(ms_timing, callback)`: append a pending step. -/
def Sequence.addStep (sq : Sequence) (ms : Int) (cbL cbR : Bool) : Sequence :=
  {sq with steps := sq.steps ++ [{done := false, ms_timing := ms, cbLeft := cbL, cbRight := cbR}]}

/-- `Sequence.start()`: record `now` as the reference time. -/
def Sequence.startAt (sq : Sequence) (now : Int) : Sequence :=
  {sq with start := some now}

/-- `Sequence.reset()`: clear the reference time and all done flags. -/
def Sequence.reset (sq : Sequence) : Sequence :=
  {sq with start := none, steps := sq.steps.map (fun st => {st with done := false})}

/-- The loop body of `Sequences.update`: visit every sequence in order. -/
def seqsUpdate (now : Int) :
    List Sequence → RoboEyes → List Sequence × RoboEyes
  | [], robo => ([], robo)
  | sq :: rest, robo =>
      let p := sq.update now robo
      let q := seqsUpdate now rest p.2
      (p.1 :: q.1, q.2)

/-- `self.sequences.update()` at the top of `RoboEyes.update`: advance
every sequence and store the updated step lists back. -/
def applySequences (robo : RoboEyes) (now : Int) : RoboEyes :=
  let p := seqsUpdate now robo.sequences robo
  {p.2 with sequences := p.1}

/-- `RoboEyes.set_framerate(fps)`: `frame_interval = 1000//fps if fps>0 else 33`. -/
def setFramerate (robo : RoboEyes) (fps : Int) : RoboEyes :=
  {robo with frame_interval := if 0 < fps then (1000 : Int).fdiv fps else 33}

/-- `RoboEyes.__init__(surface, width, height, frame_rate, ...)`, values
copied field by field (the geometry defaults are the literals 80/60/30
from the source; `now` is `pygame.time.get_ticks()` at construction). -/
def init (width height fps now : Int) : RoboEyes :=
  let eye_l_y0 : Int := (height - 80).fdiv 2
  let center_x : Int := (width - (80 + 60 + 80)).fdiv 2
  { screen_width := width
    screen_height := height
    frame_interval := if 0 < fps then (1000 : Int).fdiv fps else 33
    fps_timer := 0
    space_between_default := 60
    space_between_current := 60
    space_between_next := 60
    eye_l_width_default := 80
    eye_l_height_default := 80
    eye_r_width_default := 80
    eye_r_height_default := 80
    eye_l_width_current := 80
    eye_l_height_current := 80
    eye_r_width_current := 80
    eye_r_height_current := 80
    eye_l_width_next := 80
    eye_l_height_next := 80
    eye_r_width_next := 80
    eye_r_height_next := 80
    eye_l_radius_default := 30
    eye_r_radius_default := 30
    eye_l_radius_current := 30
    eye_r_radius_current := 30
    eye_l_radius_next := 30
    eye_r_radius_next := 30
    eye_l_x := center_x
    eye_l_y := eye_l_y0
    eye_r_x := center_x + 80 + 60
    eye_r_y := eye_l_y0
    eye_l_x_next := center_x
    eye_l_y_next := eye_l_y0
    eye_r_x_next := center_x + 80 + 60
    eye_r_y_next := eye_l_y0
    mood := DEFAULT
    tired := false
    angry := false
    happy := false
    curious := false
    cyclops := false
    sad := false
    eye_l_open := true
    eye_r_open := true
    autoblinker := false
    blink_interval := 1000
    blink_interval_variation := 2000
    next_blink := now + 1000
    idle := false
    idle_interval := 1500
    idle_interval_variation := 1500
    next_idle := now + 1500
    confused := false
    laughing := false
    confused_animation_timer := 0
    laugh_animation_timer := 0
    confused_duration := 500
    laugh_duration := 500
    wink_left := false
    wink_right := false
    wink_timer := 0
    wink_duration := 300
    sequences := [] }

/-- The `mood` property setter (and `set_mood`): store the value and
recompute the five derived flags. -/
def setMood (robo : RoboEyes) (value : Int) : RoboEyes :=
  {robo with mood := value
             tired := value == TIRED || value == SCARY
             angry := value == ANGRY
             happy := value == HAPPY
             curious := value == CURIOUS
             sad := value == SAD}

/-- The `cyclops` property setter (and `set_cyclops`). -/
def setCyclops (robo : RoboEyes) (enabled : Bool) : RoboEyes :=
  {robo with cyclops := enabled}

/-- `RoboEyes.eyes_height(left_eye, right_eye)`: set height next and
default for each side given. -/
def eyesHeight (robo : RoboEyes) (left right : Option Int) : RoboEyes :=
  let r1 := match left with
    | some v => {robo with eye_l_height_next := v, eye_l_height_default := v}
    | none => robo
  match right with
  | some v => {r1 with eye_r_height_next := v, eye_r_height_default := v}
  | none => r1

/-- `RoboEyes._schedule_open(left, right)`: add a fresh one-step sequence
named `"blink"` whose 120ms step is the `reopen(left, right)` callback,
and start it at `now`. -/
def scheduleOpen (robo : RoboEyes) (left right : Bool) (now : Int) : RoboEyes :=
  {robo with sequences := robo.sequences ++
    [{name := "blink"
      steps := [{done := false, ms_timing := 120, cbLeft := left, cbRight := right}]
      start := some now}]}

/-- `RoboEyes.blink(left, right)`: the `left is None and right is None`
branch closes both eyes (right height-next becomes 0 in cyclops mode and
the right open flag becomes `not cyclops`); otherwise each truthy side is
closed, the right one only when not in cyclops mode.  Both branches then
schedule the reopen sequence. -/
def blink (robo : RoboEyes) (left right : Option Bool) (now : Int) : RoboEyes :=
  if left = none ∧ right = none then
    let r1 := {robo with
      eye_l_height_next := 1
      eye_r_height_next := if robo.cyclops then 0 else 1
      eye_l_open := false
      eye_r_open := !robo.cyclops}
    scheduleOpen r1 true true now
  else
    let r1 := if pyTruthy left then
      {robo with eye_l_height_next := 1, eye_l_open := false} else robo
    let r2 := if pyTruthy right && !r1.cyclops then
      {r1 with eye_r_height_next := 1, eye_r_open := false} else r1
    scheduleOpen r2 (pyTruthy left) (pyTruthy right) now

/-- `RoboEyes.wink(left, right)`: raises `ValueError` when neither side is
truthy (before any mutation), otherwise records the wink flags and start
time and closes each truthy side (the right one only when not in cyclops
mode). -/
def wink (robo : RoboEyes) (left right : Option Bool) (now : Int) :
    Except String RoboEyes :=
  if !(pyTruthy left || pyTruthy right) then
    .error "wink requires left or right True"
  else
    let r1 := {robo with wink_left := pyTruthy left, wink_right := pyTruthy right,
                         wink_timer := now}
    let r2 := if pyTruthy left then
      {r1 with eye_l_height_next := 1, eye_l_open := false} else r1
    let r3 := if pyTruthy right && !r2.cyclops then
      {r2 with eye_r_height_next := 1, eye_r_open := false} else r2
    .ok r3

/-- `RoboEyes.wink_left()`: in cyclops mode fall back to `blink(left=True)`,
otherwise `wink(left=True, right=False)`. -/
def winkLeft (robo : RoboEyes) (now : Int) : Except String RoboEyes :=
  if robo.cyclops then .ok (blink robo (some true) none now)
  else wink robo (some true) (some false) now

/-- `RoboEyes.wink_right()`: in cyclops mode `blink(right=True)`,
otherwise `wink(left=False, right=True)`. -/
def winkRight (robo : RoboEyes) (now : Int) : Except String RoboEyes :=
  if robo.cyclops then .ok (blink robo none (some true) now)
  else wink robo (some false) (some true) now

/-- The auto-blink section of `update`: when enabled and due, `blink()`
fires and the next fire time is rescheduled with jitter `rb`
(the `random.randint(0, blink_interval_variation)` result). -/
def autoBlinkPhase (robo : RoboEyes) (now rb : Int) : RoboEyes :=
  if robo.autoblinker = true ∧ robo.next_blink ≤ now then
    let r1 := blink robo none none now
    {r1 with next_blink := now + r1.blink_interval + rb}
  else robo

/-- The idle-reposition section of `update`: when enabled and due, the
left eye's next position becomes the random target `(rix, riy)` (the
`random.randint(0, max_x)` / `(0, max_y)` results) and the next fire time
is rescheduled with jitter `rii`. -/
def idlePhase (robo : RoboEyes) (now rix riy rii : Int) : RoboEyes :=
  if robo.idle = true ∧ robo.next_idle ≤ now then
    {robo with eye_l_x_next := rix, eye_l_y_next := riy,
               next_idle := now + robo.idle_interval + rii}
  else robo

/-- The geometry-interpolation section of `update`: every `*_current`
moves halfway toward its `*_next` (assignments are sequential, so the
right eye's next position is derived from the freshly interpolated left
width and spacing). -/
def interpPhase (robo : RoboEyes) : RoboEyes :=
  let lw := lerp robo.eye_l_width_current robo.eye_l_width_next
  let rw := lerp robo.eye_r_width_current robo.eye_r_width_next
  let lh := lerp robo.eye_l_height_current robo.eye_l_height_next
  let rh := lerp robo.eye_r_height_current robo.eye_r_height_next
  let lr := lerp robo.eye_l_radius_current robo.eye_l_radius_next
  let rr := lerp robo.eye_r_radius_current robo.eye_r_radius_next
  let sp := lerp robo.space_between_current robo.space_between_next
  let lx := lerp robo.eye_l_x robo.eye_l_x_next
  let ly := lerp robo.eye_l_y robo.eye_l_y_next
  let rxn := robo.eye_l_x_next + lw + sp
  let ryn := robo.eye_l_y_next
  let rx := lerp robo.eye_r_x rxn
  let ry := lerp robo.eye_r_y ryn
  {robo with
    eye_l_width_current := lw
    eye_r_width_current := rw
    eye_l_height_current := lh
    eye_r_height_current := rh
    eye_l_radius_current := lr
    eye_r_radius_current := rr
    space_between_current := sp
    eye_l_x := lx
    eye_l_y := ly
    eye_r_x_next := rxn
    eye_r_y_next := ryn
    eye_r_x := rx
    eye_r_y := ry}

/-- The wink-restore section of `update`: once the wink duration has
elapsed, each winked side gets its default height and open flag back
(the right one only when not in cyclops mode) and both wink flags clear. -/
def winkRestorePhase (robo : RoboEyes) (now : Int) : RoboEyes :=
  if (robo.wink_left = true ∨ robo.wink_right = true) ∧
      robo.wink_duration < now - robo.wink_timer then
    let r1 := if robo.wink_left then
      {robo with eye_l_height_next := robo.eye_l_height_default, eye_l_open := true}
    else robo
    let r2 := if r1.wink_right && !r1.cyclops then
      {r1 with eye_r_height_next := r1.eye_r_height_default, eye_r_open := true}
    else r1
    {r2 with wink_left := false, wink_right := false}
  else robo

/-- The confuse section of `update`: while the duration has not elapsed,
both x positions shift by ±20 depending on the 80ms time bucket; once it
has elapsed, the flag clears. -/
def confusePhase (robo : RoboEyes) (now : Int) : RoboEyes :=
  if robo.confused then
    if now - robo.confused_animation_timer < robo.confused_duration then
      let j : Int := if (now.fdiv 80).emod 2 = 0 then 20 else -20
      {robo with eye_l_x := robo.eye_l_x + j, eye_r_x := robo.eye_r_x + j}
    else {robo with confused := false}
  else robo

/-- The laugh section of `update`: like confuse, but ±15 on y. -/
def laughPhase (robo : RoboEyes) (now : Int) : RoboEyes :=
  if robo.laughing then
    if now - robo.laugh_animation_timer < robo.laugh_duration then
      let j : Int := if (now.fdiv 80).emod 2 = 0 then 15 else -15
      {robo with eye_l_y := robo.eye_l_y + j, eye_r_y := robo.eye_r_y + j}
    else {robo with laughing := false}
  else robo

/-- `RoboEyes.update()`: sequences always advance first; then, unless the
frame interval has not yet elapsed since `fps_timer` (the coalescing
early return), the frame is processed: auto-blink, idle, interpolation,
wink restore, confuse and laugh, in source order.  The drawing tail of
the method touches no engine state and is omitted. -/
def RoboEyes.update (robo : RoboEyes) (now rb rix riy rii : Int) : RoboEyes :=
  let r1 := applySequences robo now
  if now - r1.fps_timer < r1.frame_interval then r1
  else
    let r2 := {r1 with fps_timer := now}
    laughPhase (confusePhase (winkRestorePhase
      (interpPhase (idlePhase (autoBlinkPhase r2 now rb) now rix riy rii)) now) now) now

/-- One engine tick with all randomness oracles fixed to 0 (harmless when
auto-blink and idle are off, as in every concrete state used below). -/
def tick (robo : RoboEyes) (now : Int) : RoboEyes := robo.update now 0 0 0 0

/-- The tuple of every engine field that no sequence callback (`reopen`)
ever writes: everything except the two height-next fields, the two open
flags and the `sequences` list itself. -/
def seqFrozen (s : RoboEyes) : List Int × List Bool :=
  ([s.screen_width, s.screen_height, s.frame_interval, s.fps_timer, s.space_between_default, s.space_between_current, s.space_between_next, s.eye_l_width_default, s.eye_l_height_default, s.eye_r_width_default, s.eye_r_height_default, s.eye_l_width_current, s.eye_l_height_current, s.eye_r_width_current, s.eye_r_height_current, s.eye_l_width_next, s.eye_r_width_next, s.eye_l_radius_default, s.eye_r_radius_default, s.eye_l_radius_current, s.eye_r_radius_current, s.eye_l_radius_next, s.eye_r_radius_next, s.eye_l_x, s.eye_l_y, s.eye_r_x, s.eye_r_y, s.eye_l_x_next, s.eye_l_y_next, s.eye_r_x_next, s.eye_r_y_next, s.mood, s.blink_interval, s.blink_interval_variation, s.next_blink, s.idle_interval, s.idle_interval_variation, s.next_idle, s.confused_animation_timer, s.laugh_animation_timer, s.confused_duration, s.laugh_duration, s.wink_timer, s.wink_duration],
   [s.tired, s.angry, s.happy, s.curious, s.cyclops, s.sad, s.autoblinker, s.idle, s.confused, s.laughing, s.wink_left, s.wink_right])

/-- The engine of the C7 failing input: cyclops mode on a freshly
initialized engine. -/
def c7state : RoboEyes := setCyclops (init 400 200 30 0) true

/-- The C1 counterexample state: left eye width current 0, target 2, on an
otherwise freshly initialized engine (auto-blink and idle off). -/
def c1state : RoboEyes :=
  {init 400 200 30 0 with eye_l_width_current := 0, eye_l_width_next := 2}

/-- The C1 witness state: width current 5, target 0. -/
def c1wit : RoboEyes :=
  {init 400 200 30 0 with eye_l_width_current := 5, eye_l_width_next := 0}

/-- The C8 counterexample state: a blink was triggered at 881ms and a
frame was processed at 1000ms (so `fps_timer = 1000` and the 120ms reopen
step, due at 1001ms, is still pending). -/
def c8state : RoboEyes :=
  RoboEyes.update (blink (init 400 200 30 0) (some true) (some true) 881) 1000 0 0 0 0

/-- The height floor for the left eye: default, current and next all ≥ 1. -/
def heightInvL (s : RoboEyes) : Prop :=
  1 ≤ s.eye_l_height_default ∧ 1 ≤ s.eye_l_height_current ∧ 1 ≤ s.eye_l_height_next

/-- The height floor for the right eye. -/
def heightInvR (s : RoboEyes) : Prop :=
  1 ≤ s.eye_r_height_default ∧ 1 ≤ s.eye_r_height_current ∧ 1 ≤ s.eye_r_height_next

/-- The C6 counterexample run: cyclops mode, then a no-argument blink at
0ms (which sets the hidden right eye's height target to 0), then seven
processed ticks 100ms apart. -/
def c6state : RoboEyes := blink (setCyclops (init 400 200 30 0) true) none none 0

/-! ## Theorems -/

/-- Floor division by two: `2 * (x // 2)` is within 1 below `x`. -/
theorem fdiv_two_bounds (x : Int) : 2 * x.fdiv 2 ≤ x ∧ x < 2 * x.fdiv 2 + 2 := by
  rw [Int.fdiv_eq_ediv x (by norm_num)]
  have h1 := Int.ediv_add_emod x 2
  have h2 := Int.emod_nonneg x (show (2 : Int) ≠ 0 by norm_num)
  have h3 := Int.emod_lt_of_pos x (show (0 : Int) < 2 by norm_num)
  omega

/-- The two-sided bound characterising `lerp`. -/
theorem lerp_bounds (a b : Int) : 2 * lerp a b ≤ a + b ∧ a + b < 2 * lerp a b + 2 :=
  fdiv_two_bounds (a + b)

/-- Unpacking a `seqFrozen` equality into one equation per field. -/
theorem seqFrozen_elim {s' s : RoboEyes} (h : seqFrozen s' = seqFrozen s) :
    s'.screen_width = s.screen_width ∧
    s'.screen_height = s.screen_height ∧
    s'.frame_interval = s.frame_interval ∧
    s'.fps_timer = s.fps_timer ∧
    s'.space_between_default = s.space_between_default ∧
    s'.space_between_current = s.space_between_current ∧
    s'.space_between_next = s.space_between_next ∧
    s'.eye_l_width_default = s.eye_l_width_default ∧
    s'.eye_l_height_default = s.eye_l_height_default ∧
    s'.eye_r_width_default = s.eye_r_width_default ∧
    s'.eye_r_height_default = s.eye_r_height_default ∧
    s'.eye_l_width_current = s.eye_l_width_current ∧
    s'.eye_l_height_current = s.eye_l_height_current ∧
    s'.eye_r_width_current = s.eye_r_width_current ∧
    s'.eye_r_height_current = s.eye_r_height_current ∧
    s'.eye_l_width_next = s.eye_l_width_next ∧
    s'.eye_r_width_next = s.eye_r_width_next ∧
    s'.eye_l_radius_default = s.eye_l_radius_default ∧
    s'.eye_r_radius_default = s.eye_r_radius_default ∧
    s'.eye_l_radius_current = s.eye_l_radius_current ∧
    s'.eye_r_radius_current = s.eye_r_radius_current ∧
    s'.eye_l_radius_next = s.eye_l_radius_next ∧
    s'.eye_r_radius_next = s.eye_r_radius_next ∧
    s'.eye_l_x = s.eye_l_x ∧
    s'.eye_l_y = s.eye_l_y ∧
    s'.eye_r_x = s.eye_r_x ∧
    s'.eye_r_y = s.eye_r_y ∧
    s'.eye_l_x_next = s.eye_l_x_next ∧
    s'.eye_l_y_next = s.eye_l_y_next ∧
    s'.eye_r_x_next = s.eye_r_x_next ∧
    s'.eye_r_y_next = s.eye_r_y_next ∧
    s'.mood = s.mood ∧
    s'.blink_interval = s.blink_interval ∧
    s'.blink_interval_variation = s.blink_interval_variation ∧
    s'.next_blink = s.next_blink ∧
    s'.idle_interval = s.idle_interval ∧
    s'.idle_interval_variation = s.idle_interval_variation ∧
    s'.next_idle = s.next_idle ∧
    s'.confused_animation_timer = s.confused_animation_timer ∧
    s'.laugh_animation_timer = s.laugh_animation_timer ∧
    s'.confused_duration = s.confused_duration ∧
    s'.laugh_duration = s.laugh_duration ∧
    s'.wink_timer = s.wink_timer ∧
    s'.wink_duration = s.wink_duration ∧
    s'.tired = s.tired ∧
    s'.angry = s.angry ∧
    s'.happy = s.happy ∧
    s'.curious = s.curious ∧
    s'.cyclops = s.cyclops ∧
    s'.sad = s.sad ∧
    s'.autoblinker = s.autoblinker ∧
    s'.idle = s.idle ∧
    s'.confused = s.confused ∧
    s'.laughing = s.laughing ∧
    s'.wink_left = s.wink_left ∧
    s'.wink_right = s.wink_right := by
  simp only [seqFrozen, Prod.mk.injEq, List.cons.injEq, and_true] at h
  obtain ⟨⟨h0, h1, h2, h3, h4, h5, h6, h7, h8, h9, h10, h11, h12, h13, h14, h15, h16, h17, h18, h19, h20, h21, h22, h23, h24, h25, h26, h27, h28, h29, h30, h31, h32, h33, h34, h35, h36, h37, h38, h39, h40, h41, h42, h43⟩, g0, g1, g2, g3, g4, g5, g6, g7, g8, g9, g10, g11⟩ := h
  exact ⟨h0, h1, h2, h3, h4, h5, h6, h7, h8, h9, h10, h11, h12, h13, h14, h15, h16, h17, h18, h19, h20, h21, h22, h23, h24, h25, h26, h27, h28, h29, h30, h31, h32, h33, h34, h35, h36, h37, h38, h39, h40, h41, h42, h43, g0, g1, g2, g3, g4, g5, g6, g7, g8, g9, g10, g11⟩

theorem reopen_frozen (l r : Bool) (s : RoboEyes) :
    seqFrozen (reopen l r s) = seqFrozen s := by
  cases l <;> cases r <;> cases hc : s.cyclops <;> simp [reopen, seqFrozen, hc]

theorem stepUpdate_frozen (st : StepData) (t0 now : Int) (s : RoboEyes) :
    seqFrozen (st.update t0 now s).2 = seqFrozen s := by
  unfold StepData.update
  split
  · rfl
  · split
    · rfl
    · exact reopen_frozen st.cbLeft st.cbRight s

theorem stepsUpdate_frozen (t0 now : Int) :
    ∀ (l : List StepData) (s : RoboEyes),
      seqFrozen (stepsUpdate t0 now l s).2 = seqFrozen s
  | [], _ => rfl
  | st :: rest, s => by
      simp only [stepsUpdate]
      rw [stepsUpdate_frozen t0 now rest (st.update t0 now s).2]
      exact stepUpdate_frozen st t0 now s

theorem sequenceUpdate_frozen (sq : Sequence) (now : Int) (s : RoboEyes) :
    seqFrozen (sq.update now s).2 = seqFrozen s := by
  cases hs : sq.start <;> simp [Sequence.update, hs, stepsUpdate_frozen]

theorem seqsUpdate_frozen (now : Int) :
    ∀ (l : List Sequence) (s : RoboEyes),
      seqFrozen (seqsUpdate now l s).2 = seqFrozen s
  | [], _ => rfl
  | sq :: rest, s => by
      simp only [seqsUpdate]
      rw [seqsUpdate_frozen now rest (sq.update now s).2]
      exact sequenceUpdate_frozen sq now s

theorem applySequences_frozen (s : RoboEyes) (now : Int) :
    seqFrozen (applySequences s now) = seqFrozen s :=
  seqsUpdate_frozen now s.sequences s

theorem scheduleOpen_frozen (s : RoboEyes) (l r : Bool) (now : Int) :
    seqFrozen (scheduleOpen s l r now) = seqFrozen s := rfl

theorem blink_frozen (s : RoboEyes) (l r : Option Bool) (now : Int) :
    seqFrozen (blink s l r now) = seqFrozen s := by
  unfold blink
  split
  · rfl
  · cases pyTruthy l <;> cases pyTruthy r <;>
      cases hc : s.cyclops <;> simp [scheduleOpen, seqFrozen, hc]

/-- Approaching from above, the gap halves each tick (floor), so the
target is reached once the initial gap is below `2 ^ k`. -/
theorem lerp_reaches_from_above :
    ∀ (k : Nat) (a b : Int), b ≤ a → a - b < 2 ^ k →
      (fun x => lerp x b)^[k] a = b := by
  intro k
  induction k with
  | zero => intro a b hle hlt; simp only [Function.iterate_zero, id]; omega
  | succ k ih =>
      intro a b hle hlt
      rw [Function.iterate_succ_apply]
      have hb := lerp_bounds a b
      have hp : (2 : Int) ^ (k + 1) = 2 ^ k * 2 := pow_succ 2 k
      exact ih (lerp a b) b (by omega) (by omega)

/-- Approaching from below, the value never reaches the target. -/
theorem lerp_never_reaches_from_below :
    ∀ (k : Nat) (a b : Int), a < b → (fun x => lerp x b)^[k] a < b := by
  intro k
  induction k with
  | zero => intro a b h; simpa using h
  | succ k ih =>
      intro a b h
      rw [Function.iterate_succ_apply]
      have hb := lerp_bounds a b
      exact ih (lerp a b) b (by omega)

/-- Approaching from below, the value settles at `target - 1` once the
initial gap is at most `2 ^ k`. -/
theorem lerp_settles_below :
    ∀ (k : Nat) (a b : Int), a < b → b - a ≤ 2 ^ k →
      (fun x => lerp x b)^[k] a = b - 1 := by
  intro k
  induction k with
  | zero => intro a b hlt hle; simp only [Function.iterate_zero, id]; omega
  | succ k ih =>
      intro a b hlt hle
      rw [Function.iterate_succ_apply]
      have hb := lerp_bounds a b
      have hp : (2 : Int) ^ (k + 1) = 2 ^ k * 2 := pow_succ 2 k
      have hpk : (0 : Int) < 2 ^ k := by positivity
      exact ih (lerp a b) b (by omega) (by omega)

theorem autoBlinkPhase_off (s : RoboEyes) (now rb : Int)
    (h : s.autoblinker = false) : autoBlinkPhase s now rb = s := by
  unfold autoBlinkPhase
  rw [if_neg]
  simp [h]

theorem autoBlinkPhase_fields (s : RoboEyes) (now rb : Int) :
    (autoBlinkPhase s now rb).eye_l_width_current = s.eye_l_width_current ∧
    (autoBlinkPhase s now rb).eye_l_width_next = s.eye_l_width_next ∧
    (autoBlinkPhase s now rb).eye_l_height_current = s.eye_l_height_current ∧
    (autoBlinkPhase s now rb).eye_r_height_current = s.eye_r_height_current ∧
    (autoBlinkPhase s now rb).eye_l_height_default = s.eye_l_height_default ∧
    (autoBlinkPhase s now rb).eye_r_height_default = s.eye_r_height_default ∧
    (autoBlinkPhase s now rb).cyclops = s.cyclops := by
  unfold autoBlinkPhase
  split
  · have h := seqFrozen_elim (blink_frozen s none none now)
    simp only [RoboEyes.eye_l_width_current, RoboEyes.eye_l_width_next]
    exact ⟨h.2.2.2.2.2.2.2.2.2.2.2.1, by tauto, by tauto, by tauto, by tauto, by tauto, by tauto⟩
  · exact ⟨rfl, rfl, rfl, rfl, rfl, rfl, rfl⟩

theorem idlePhase_fields (s : RoboEyes) (now rix riy rii : Int) :
    (idlePhase s now rix riy rii).eye_l_width_current = s.eye_l_width_current ∧
    (idlePhase s now rix riy rii).eye_l_width_next = s.eye_l_width_next ∧
    (idlePhase s now rix riy rii).eye_l_height_current = s.eye_l_height_current ∧
    (idlePhase s now rix riy rii).eye_l_height_next = s.eye_l_height_next ∧
    (idlePhase s now rix riy rii).eye_r_height_current = s.eye_r_height_current ∧
    (idlePhase s now rix riy rii).eye_r_height_next = s.eye_r_height_next ∧
    (idlePhase s now rix riy rii).eye_l_height_default = s.eye_l_height_default ∧
    (idlePhase s now rix riy rii).eye_r_height_default = s.eye_r_height_default ∧
    (idlePhase s now rix riy rii).eye_l_open = s.eye_l_open ∧
    (idlePhase s now rix riy rii).eye_r_open = s.eye_r_open ∧
    (idlePhase s now rix riy rii).cyclops = s.cyclops ∧
    (idlePhase s now rix riy rii).wink_left = s.wink_left ∧
    (idlePhase s now rix riy rii).wink_right = s.wink_right ∧
    (idlePhase s now rix riy rii).space_between_current = s.space_between_current ∧
    (idlePhase s now rix riy rii).space_between_next = s.space_between_next := by
  unfold idlePhase
  split <;> exact ⟨rfl, rfl, rfl, rfl, rfl, rfl, rfl, rfl, rfl, rfl, rfl, rfl, rfl, rfl, rfl⟩

theorem interpPhase_lerps (s : RoboEyes) :
    (interpPhase s).eye_l_width_current = lerp s.eye_l_width_current s.eye_l_width_next ∧
    (interpPhase s).eye_l_height_current = lerp s.eye_l_height_current s.eye_l_height_next ∧
    (interpPhase s).eye_r_height_current = lerp s.eye_r_height_current s.eye_r_height_next ∧
    (interpPhase s).eye_l_height_next = s.eye_l_height_next ∧
    (interpPhase s).eye_r_height_next = s.eye_r_height_next ∧
    (interpPhase s).eye_l_height_default = s.eye_l_height_default ∧
    (interpPhase s).eye_r_height_default = s.eye_r_height_default ∧
    (interpPhase s).eye_l_open = s.eye_l_open ∧
    (interpPhase s).eye_r_open = s.eye_r_open ∧
    (interpPhase s).cyclops = s.cyclops ∧
    (interpPhase s).wink_left = s.wink_left ∧
    (interpPhase s).wink_right = s.wink_right :=
  ⟨rfl, rfl, rfl, rfl, rfl, rfl, rfl, rfl, rfl, rfl, rfl, rfl⟩

theorem interpPhase_couples (s : RoboEyes) :
    (interpPhase s).eye_r_x_next =
      (interpPhase s).eye_l_x_next + (interpPhase s).eye_l_width_current +
        (interpPhase s).space_between_current ∧
    (interpPhase s).eye_r_y_next = (interpPhase s).eye_l_y_next :=
  ⟨rfl, rfl⟩

theorem winkRestorePhase_fields (s : RoboEyes) (now : Int) :
    (winkRestorePhase s now).eye_l_width_current = s.eye_l_width_current ∧
    (winkRestorePhase s now).space_between_current = s.space_between_current ∧
    (winkRestorePhase s now).eye_l_x_next = s.eye_l_x_next ∧
    (winkRestorePhase s now).eye_l_y_next = s.eye_l_y_next ∧
    (winkRestorePhase s now).eye_r_x_next = s.eye_r_x_next ∧
    (winkRestorePhase s now).eye_r_y_next = s.eye_r_y_next ∧
    (winkRestorePhase s now).eye_l_height_current = s.eye_l_height_current ∧
    (winkRestorePhase s now).eye_r_height_current = s.eye_r_height_current ∧
    (winkRestorePhase s now).eye_l_height_default = s.eye_l_height_default ∧
    (winkRestorePhase s now).eye_r_height_default = s.eye_r_height_default ∧
    (winkRestorePhase s now).cyclops = s.cyclops := by
  simp only [winkRestorePhase]
  split
  · split <;> split <;> simp
  · simp

theorem winkRestorePhase_at_defaults (s : RoboEyes) (now : Int)
    (hl : s.eye_l_height_next = s.eye_l_height_default)
    (hr : s.eye_r_height_next = s.eye_r_height_default)
    (hol : s.eye_l_open = true) (hor : s.eye_r_open = true) :
    (winkRestorePhase s now).eye_l_height_next = s.eye_l_height_default ∧
    (winkRestorePhase s now).eye_r_height_next = s.eye_r_height_default ∧
    (winkRestorePhase s now).eye_l_open = true ∧
    (winkRestorePhase s now).eye_r_open = true := by
  simp only [winkRestorePhase]
  split
  · split <;> split <;> simp_all
  · simp_all

theorem confusePhase_fields (s : RoboEyes) (now : Int) :
    (confusePhase s now).eye_l_width_current = s.eye_l_width_current ∧
    (confusePhase s now).space_between_current = s.space_between_current ∧
    (confusePhase s now).eye_l_x_next = s.eye_l_x_next ∧
    (confusePhase s now).eye_l_y_next = s.eye_l_y_next ∧
    (confusePhase s now).eye_r_x_next = s.eye_r_x_next ∧
    (confusePhase s now).eye_r_y_next = s.eye_r_y_next ∧
    (confusePhase s now).eye_l_height_current = s.eye_l_height_current ∧
    (confusePhase s now).eye_r_height_current = s.eye_r_height_current ∧
    (confusePhase s now).eye_l_height_next = s.eye_l_height_next ∧
    (confusePhase s now).eye_r_height_next = s.eye_r_height_next ∧
    (confusePhase s now).eye_l_height_default = s.eye_l_height_default ∧
    (confusePhase s now).eye_r_height_default = s.eye_r_height_default ∧
    (confusePhase s now).eye_l_open = s.eye_l_open ∧
    (confusePhase s now).eye_r_open = s.eye_r_open ∧
    (confusePhase s now).cyclops = s.cyclops := by
  simp only [confusePhase]
  split
  · split <;> simp
  · simp

theorem laughPhase_fields (s : RoboEyes) (now : Int) :
    (laughPhase s now).eye_l_width_current = s.eye_l_width_current ∧
    (laughPhase s now).space_between_current = s.space_between_current ∧
    (laughPhase s now).eye_l_x_next = s.eye_l_x_next ∧
    (laughPhase s now).eye_l_y_next = s.eye_l_y_next ∧
    (laughPhase s now).eye_r_x_next = s.eye_r_x_next ∧
    (laughPhase s now).eye_r_y_next = s.eye_r_y_next ∧
    (laughPhase s now).eye_l_height_current = s.eye_l_height_current ∧
    (laughPhase s now).eye_r_height_current = s.eye_r_height_current ∧
    (laughPhase s now).eye_l_height_next = s.eye_l_height_next ∧
    (laughPhase s now).eye_r_height_next = s.eye_r_height_next ∧
    (laughPhase s now).eye_l_height_default = s.eye_l_height_default ∧
    (laughPhase s now).eye_r_height_default = s.eye_r_height_default ∧
    (laughPhase s now).eye_l_open = s.eye_l_open ∧
    (laughPhase s now).eye_r_open = s.eye_r_open ∧
    (laughPhase s now).cyclops = s.cyclops := by
  simp only [laughPhase]
  split
  · split <;> simp
  · simp

theorem stepsUpdate_all_done (t0 now : Int) :
    ∀ (l : List StepData) (s : RoboEyes), (∀ st ∈ l, st.done = true) →
      stepsUpdate t0 now l s = (l, s)
  | [], _, _ => rfl
  | st :: rest, s, h => by
      have hd : st.done = true := h st (List.mem_cons_self st rest)
      simp only [stepsUpdate, StepData.update, hd, if_true]
      rw [stepsUpdate_all_done t0 now rest s (fun st' hm => h st' (List.mem_cons_of_mem st hm))]

theorem seqsUpdate_append_snd (now : Int) :
    ∀ (l1 l2 : List Sequence) (s : RoboEyes),
      (seqsUpdate now (l1 ++ l2) s).2 = (seqsUpdate now l2 (seqsUpdate now l1 s).2).2
  | [], _, _ => rfl
  | sq :: rest, l2, s => by
      simp only [List.cons_append, seqsUpdate]
      exact seqsUpdate_append_snd now rest l2 (sq.update now s).2

/-- C2: a started sequence fires each step exactly on the first tick where
`now - start ≥ offset`, marks it done, never re-fires a done step, leaves a
not-yet-due step pending and untouched, treats a sequence without a
reference time (never started or reset) as done and inert, and `reset`
makes a sequence report done. -/
theorem C2_sequence_step_exactly_once (t0 now : Int) (st : StepData)
    (sq : Sequence) (s : RoboEyes) :
    (st.done = false → st.ms_timing ≤ now - t0 →
      st.update t0 now s = ({st with done := true}, reopen st.cbLeft st.cbRight s)) ∧
    (st.done = false → now - t0 < st.ms_timing → st.update t0 now s = (st, s)) ∧
    (st.done = true → st.update t0 now s = (st, s)) ∧
    (sq.start = none → sq.update now s = (sq, s) ∧ sq.done = true) ∧
    ((∀ st' ∈ sq.steps, st'.done = true) → sq.update now s = (sq, s)) ∧
    (sq.reset).done = true := by
  refine ⟨?_, ?_, ?_, ?_, ?_, ?_⟩
  · intro h1 h2
    simp only [StepData.update, h1, if_false, Bool.false_eq_true]
    rw [if_neg (by omega)]
  · intro h1 h2
    simp only [StepData.update, h1, if_false, Bool.false_eq_true]
    rw [if_pos h2]
  · intro h1
    simp [StepData.update, h1]
  · intro h1
    exact ⟨by simp [Sequence.update, h1], by simp [Sequence.done, h1]⟩
  · intro h1
    obtain ⟨nm, stps, sst⟩ := sq
    cases sst with
    | none => simp [Sequence.update]
    | some t0' =>
        simp [Sequence.update, stepsUpdate_all_done t0' now stps s (by exact h1)]
  · simp [Sequence.reset, Sequence.done]

/-- Witness for C2: a due pending step at offset 120 fires 130ms after the
start, and a never-started sequence is left entirely alone. -/
theorem C2_witness :
    StepData.update {done := false, ms_timing := 120, cbLeft := true, cbRight := true}
        0 130 (init 400 200 30 0) =
      ({done := true, ms_timing := 120, cbLeft := true, cbRight := true},
        reopen true true (init 400 200 30 0)) ∧
    Sequence.update {name := "blink", steps := [{done := false, ms_timing := 10, cbLeft := true, cbRight := true}], start := none}
        500 (init 400 200 30 0) =
      ({name := "blink", steps := [{done := false, ms_timing := 10, cbLeft := true, cbRight := true}], start := none},
        init 400 200 30 0) :=
  ⟨(C2_sequence_step_exactly_once 0 130
      {done := false, ms_timing := 120, cbLeft := true, cbRight := true}
      {name := "blink", steps := [], start := none} (init 400 200 30 0)).1 rfl (by norm_num),
   ((C2_sequence_step_exactly_once 0 500
      {done := false, ms_timing := 120, cbLeft := true, cbRight := true}
      {name := "blink", steps := [{done := false, ms_timing := 10, cbLeft := true, cbRight := true}], start := none}
      (init 400 200 30 0)).2.2.2.1 rfl).1⟩

/-- C3: `wink` with neither side truthy (both `False`, or any falsy
combination) fails synchronously with the invalid-argument error; the
`raise` is the first statement of the Python method, so the returned
`Except.error` carries the unmodified pre-call state semantics — no field
assignment is ever reached. -/
theorem C3_wink_requires_a_side (s : RoboEyes) (now : Int) :
    wink s (some false) (some false) now = .error "wink requires left or right True" ∧
    wink s none none now = .error "wink requires left or right True" ∧
    wink s (some false) none now = .error "wink requires left or right True" ∧
    wink s none (some false) now = .error "wink requires left or right True" :=
  ⟨rfl, rfl, rfl, rfl⟩

/-- C4: for each of the eight enumerated moods, `set_mood` yields exactly
the documented flag combination, at most one of the five flags is set, and
reading `mood` returns the value just stored. -/
theorem C4_set_mood_total (s : RoboEyes) (v : Int)
    (hv : v = DEFAULT ∨ v = TIRED ∨ v = ANGRY ∨ v = HAPPY ∨ v = FROZEN ∨
          v = SCARY ∨ v = CURIOUS ∨ v = SAD) :
    ((setMood s v).tired = true ↔ (v = TIRED ∨ v = SCARY)) ∧
    ((setMood s v).angry = true ↔ v = ANGRY) ∧
    ((setMood s v).happy = true ↔ v = HAPPY) ∧
    ((setMood s v).curious = true ↔ v = CURIOUS) ∧
    ((setMood s v).sad = true ↔ v = SAD) ∧
    ((if (setMood s v).tired = true then 1 else 0) +
      (if (setMood s v).angry = true then 1 else 0) +
      (if (setMood s v).happy = true then 1 else 0) +
      (if (setMood s v).curious = true then 1 else 0) +
      (if (setMood s v).sad = true then 1 else 0) : Nat) ≤ 1 ∧
    (setMood s v).mood = v := by
  rcases hv with rfl | rfl | rfl | rfl | rfl | rfl | rfl | rfl <;>
    simp [setMood, DEFAULT, TIRED, ANGRY, HAPPY, FROZEN, SCARY, CURIOUS, SAD]

/-- Witness for C4 at `HAPPY` on a freshly initialized engine. -/
theorem C4_witness :
    (setMood (init 400 200 30 0) HAPPY).mood = HAPPY ∧
    ((setMood (init 400 200 30 0) HAPPY).happy = true ↔ HAPPY = HAPPY) :=
  ⟨(C4_set_mood_total (init 400 200 30 0) HAPPY (by tauto)).2.2.2.2.2.2,
   (C4_set_mood_total (init 400 200 30 0) HAPPY (by tauto)).2.2.1⟩

/-- C10: `set_mood` with a value outside the eight-value enumeration still
succeeds, stores the value (a subsequent read returns it) and clears all
five derived flags, so an unknown mood renders with the default
treatment. -/
theorem C10_set_mood_unknown (s : RoboEyes) (v : Int)
    (hv : ¬(v = DEFAULT ∨ v = TIRED ∨ v = ANGRY ∨ v = HAPPY ∨ v = FROZEN ∨
            v = SCARY ∨ v = CURIOUS ∨ v = SAD)) :
    (setMood s v).mood = v ∧
    (setMood s v).tired = false ∧
    (setMood s v).angry = false ∧
    (setMood s v).happy = false ∧
    (setMood s v).curious = false ∧
    (setMood s v).sad = false := by
  push_neg at hv
  obtain ⟨h0, h1, h2, h3, h4, h5, h6, h7⟩ := hv
  unfold DEFAULT TIRED ANGRY HAPPY FROZEN SCARY CURIOUS SAD at *
  refine ⟨rfl, ?_, ?_, ?_, ?_, ?_⟩ <;>
    simp [setMood, TIRED, SCARY, ANGRY, HAPPY, CURIOUS, SAD] <;> omega

/-- Witness for C10 at the out-of-range mood 42. -/
theorem C10_witness :
    (setMood (init 400 200 30 0) 42).mood = 42 ∧
    (setMood (init 400 200 30 0) 42).tired = false ∧
    (setMood (init 400 200 30 0) 42).angry = false ∧
    (setMood (init 400 200 30 0) 42).happy = false ∧
    (setMood (init 400 200 30 0) 42).curious = false ∧
    (setMood (init 400 200 30 0) 42).sad = false :=
  C10_set_mood_unknown (init 400 200 30 0) 42 (by decide)

/-- C7 (code bug): in cyclops mode `wink_right()` calls `blink(right=True)`,
but every right-eye action inside `blink` and inside the scheduled `reopen`
callback is guarded by `not cyclops`, so nothing closes: the single (left)
eye keeps its height target 80 and stays open, the right-eye fields are
also untouched, and no wink flag is set — the documented degrade-to-blink
behavior (close the single eye, reopen after the delay) never happens. -/
theorem C7_cyclops_wink_right_is_noop :
    (winkRight c7state 0).toOption.map (fun r => r.eye_l_height_next) = some 80 ∧
    (winkRight c7state 0).toOption.map (fun r => r.eye_l_open) = some true ∧
    (winkRight c7state 0).toOption.map (fun r => r.eye_r_height_next) = some 80 ∧
    (winkRight c7state 0).toOption.map (fun r => r.eye_r_open) = some true ∧
    (winkRight c7state 0).toOption.map (fun r => r.wink_left) = some false ∧
    (winkRight c7state 0).toOption.map (fun r => r.wink_right) = some false ∧
    c7state.eye_l_height_next = 80 ∧ c7state.eye_l_open = true := by
  decide

/-- C1 counterexample: with `width_current = 0` and `width_next = 2`
(gap 2, so the claim promises equality within ⌈log2 2⌉ = 1 tick), one
processed tick gives 1, five processed ticks still give 1, and 1 is a
fixed point of the interpolation toward 2 — floor division makes the
value settle at `next - 1`, never reaching `next` from below. -/
theorem C1_counterexample :
    (tick c1state 100).eye_l_width_current = 1 ∧
    (tick (tick c1state 100) 200).eye_l_width_current = 1 ∧
    (tick (tick (tick (tick (tick c1state 100) 200) 300) 400) 500).eye_l_width_current = 1 ∧
    lerp 1 2 = 1 ∧ (1 : Int) ≠ 2 := by decide

/-- C1 (amended): a processed tick replaces `width_current` by
`(width_current + width_next) // 2` with *floor* (not truncating)
division; the motion never overshoots; approaching from above the value
reaches the target within `k` ticks once the gap is below `2 ^ k`;
approaching from below it never reaches the target at all — it settles at
`width_next - 1` within `k` ticks once the gap is at most `2 ^ k`. -/
theorem C1_halfway_interpolation_amended (s : RoboEyes)
    (now rb rix riy rii a b : Int) (k : Nat)
    (hproc : s.frame_interval ≤ now - s.fps_timer) :
    (s.update now rb rix riy rii).eye_l_width_current =
      lerp s.eye_l_width_current s.eye_l_width_next ∧
    (a ≤ b → a ≤ lerp a b ∧ lerp a b ≤ b) ∧
    (b ≤ a → b ≤ lerp a b ∧ lerp a b ≤ a) ∧
    (b ≤ a → a - b < 2 ^ k → (fun x => lerp x b)^[k] a = b) ∧
    (a < b → (fun x => lerp x b)^[k] a < b) ∧
    (a < b → b - a ≤ 2 ^ k → (fun x => lerp x b)^[k] a = b - 1) := by
  obtain ⟨-, -, hfi, hfps, -, -, -, -, -, -, -, hwc, -, -, -, hwn, -, -, -, -, -, -, -, -, -, -, -, -, -, -, -, -, -, -, -, -, -, -, -, -, -, -, -, -, -, -, -, -, -, -, -, -, -, -, -, -⟩ :=
    seqFrozen_elim (applySequences_frozen s now)
  refine ⟨?_, ?_, ?_, lerp_reaches_from_above k a b,
    lerp_never_reaches_from_below k a b, lerp_settles_below k a b⟩
  · simp only [RoboEyes.update]
    rw [if_neg (by rw [hfps, hfi]; omega)]
    rw [(laughPhase_fields _ now).1, (confusePhase_fields _ now).1,
        (winkRestorePhase_fields _ now).1, (interpPhase_lerps _).1,
        (idlePhase_fields _ now rix riy rii).1, (idlePhase_fields _ now rix riy rii).2.1,
        (autoBlinkPhase_fields _ now rb).1, (autoBlinkPhase_fields _ now rb).2.1]
    show lerp (applySequences s now).eye_l_width_current
        (applySequences s now).eye_l_width_next = _
    rw [hwc, hwn]
  · intro h; have hb := lerp_bounds a b; constructor <;> omega
  · intro h; have hb := lerp_bounds a b; constructor <;> omega

/-- Witness for C1 (amended): a processed tick interpolates 5 toward 0 to
`lerp 5 0`, and from above the gap 5 closes within 3 ticks. -/
theorem C1_witness :
    (RoboEyes.update c1wit 100 0 0 0 0).eye_l_width_current = lerp 5 0 ∧
    (fun x => lerp x 0)^[3] 5 = 0 :=
  ⟨(C1_halfway_interpolation_amended c1wit 100 0 0 0 0 5 0 3 (by decide)).1,
   (C1_halfway_interpolation_amended c1wit 100 0 0 0 0 5 0 3 (by decide)).2.2.2.1
      (by decide) (by decide)⟩

/-- C8 counterexample: at 1010ms the frame interval (33ms at 30fps) has
not elapsed since the last processed frame, yet `update` still fires the
due reopen step: `eye_l_height_next` changes from 1 back to 80 on a
coalesced call, because `sequences.update()` runs before the rate-limit
check. -/
theorem C8_counterexample :
    c8state.eye_l_height_next = 1 ∧
    1010 - c8state.fps_timer < c8state.frame_interval ∧
    (c8state.update 1010 0 0 0 0).eye_l_height_next = 80 := by decide

/-- C8 (amended): a call arriving before the frame interval has elapsed
does nothing *except* advancing the sequences (which run before the
rate-limit check): the call equals `applySequences`, and that never
touches any `*_current` geometry, positions, `fps_timer`, the auto-blink
and auto-idle schedules, or the wink/confuse/laugh micro-animation
state — only sequence bookkeeping, height targets and open flags. -/
theorem C8_coalesced_tick (s : RoboEyes) (now rb rix riy rii : Int)
    (h : now - s.fps_timer < s.frame_interval) :
    s.update now rb rix riy rii = applySequences s now ∧
    (applySequences s now).eye_l_width_current = s.eye_l_width_current ∧
    (applySequences s now).eye_r_width_current = s.eye_r_width_current ∧
    (applySequences s now).eye_l_height_current = s.eye_l_height_current ∧
    (applySequences s now).eye_r_height_current = s.eye_r_height_current ∧
    (applySequences s now).eye_l_radius_current = s.eye_l_radius_current ∧
    (applySequences s now).eye_r_radius_current = s.eye_r_radius_current ∧
    (applySequences s now).space_between_current = s.space_between_current ∧
    (applySequences s now).eye_l_x = s.eye_l_x ∧
    (applySequences s now).eye_l_y = s.eye_l_y ∧
    (applySequences s now).eye_r_x = s.eye_r_x ∧
    (applySequences s now).eye_r_y = s.eye_r_y ∧
    (applySequences s now).fps_timer = s.fps_timer ∧
    (applySequences s now).next_blink = s.next_blink ∧
    (applySequences s now).next_idle = s.next_idle ∧
    (applySequences s now).wink_left = s.wink_left ∧
    (applySequences s now).wink_right = s.wink_right ∧
    (applySequences s now).confused = s.confused ∧
    (applySequences s now).laughing = s.laughing := by
  obtain ⟨-, -, hfi, hfps, -, hsp, -, -, -, -, -, hwc, hlhc, hrwc, hrhc, -, -, -, -, hlrc, hrrc, -, -, hlx, hly, hrx, hry, -, -, -, -, -, -, -, hnb, -, -, hni, -, -, -, -, -, -, -, -, -, -, -, -, -, -, hcf, hlg, hwl, hwr⟩ :=
    seqFrozen_elim (applySequences_frozen s now)
  refine ⟨?_, hwc, hrwc, hlhc, hrhc, hlrc, hrrc, hsp, hlx, hly, hrx, hry,
    hfps, hnb, hni, hwl, hwr, hcf, hlg⟩
  simp only [RoboEyes.update]
  rw [if_pos (by rw [hfps, hfi]; omega)]

/-- Witness for C8 (amended): a call at 10ms on a freshly initialized
engine (frame interval 33ms) is pure sequence bookkeeping. -/
theorem C8_witness :
    RoboEyes.update (init 400 200 30 0) 10 0 0 0 0 =
      applySequences (init 400 200 30 0) 10 :=
  (C8_coalesced_tick (init 400 200 30 0) 10 0 0 0 0 (by decide)).1

/-- C9: on every processed tick the right eye's next position is rederived
from the left eye: `eye_r_x_next = eye_l_x_next + eye_l_width_current +
space_between_current` and `eye_r_y_next = eye_l_y_next` hold of the
post-tick state, keeping the eyes mechanically linked. -/
theorem C9_right_eye_derived (s : RoboEyes) (now rb rix riy rii : Int)
    (hproc : s.frame_interval ≤ now - s.fps_timer) :
    (s.update now rb rix riy rii).eye_r_x_next =
      (s.update now rb rix riy rii).eye_l_x_next +
      (s.update now rb rix riy rii).eye_l_width_current +
      (s.update now rb rix riy rii).space_between_current ∧
    (s.update now rb rix riy rii).eye_r_y_next =
      (s.update now rb rix riy rii).eye_l_y_next := by
  obtain ⟨-, -, hfi, hfps, -, -, -, -, -, -, -, -, -, -, -, -, -, -, -, -, -, -, -, -, -, -, -, -, -, -, -, -, -, -, -, -, -, -, -, -, -, -, -, -, -, -, -, -, -, -, -, -, -, -, -, -⟩ :=
    seqFrozen_elim (applySequences_frozen s now)
  simp only [RoboEyes.update]
  rw [if_neg (by rw [hfps, hfi]; omega)]
  constructor
  · rw [(laughPhase_fields _ now).2.2.2.2.1, (laughPhase_fields _ now).2.2.1,
        (laughPhase_fields _ now).1, (laughPhase_fields _ now).2.1,
        (confusePhase_fields _ now).2.2.2.2.1, (confusePhase_fields _ now).2.2.1,
        (confusePhase_fields _ now).1, (confusePhase_fields _ now).2.1,
        (winkRestorePhase_fields _ now).2.2.2.2.1, (winkRestorePhase_fields _ now).2.2.1,
        (winkRestorePhase_fields _ now).1, (winkRestorePhase_fields _ now).2.1]
    exact (interpPhase_couples _).1
  · rw [(laughPhase_fields _ now).2.2.2.2.2.1, (laughPhase_fields _ now).2.2.2.1,
        (confusePhase_fields _ now).2.2.2.2.2.1, (confusePhase_fields _ now).2.2.2.1,
        (winkRestorePhase_fields _ now).2.2.2.2.2.1, (winkRestorePhase_fields _ now).2.2.2.1]
    exact (interpPhase_couples _).2

/-- Witness for C9 on a freshly initialized engine at 100ms. -/
theorem C9_witness :
    (RoboEyes.update (init 400 200 30 0) 100 0 0 0 0).eye_r_x_next =
      (RoboEyes.update (init 400 200 30 0) 100 0 0 0 0).eye_l_x_next +
      (RoboEyes.update (init 400 200 30 0) 100 0 0 0 0).eye_l_width_current +
      (RoboEyes.update (init 400 200 30 0) 100 0 0 0 0).space_between_current :=
  (C9_right_eye_derived (init 400 200 30 0) 100 0 0 0 0 (by decide)).1

theorem seqsUpdate_fires_last (ls : List Sequence) (B : RoboEyes) (cL cR t0 t1 : _)
    (hd : 120 ≤ t1 - t0) :
    (seqsUpdate t1 (ls ++
        [{name := "blink",
          steps := [{done := false, ms_timing := 120, cbLeft := cL, cbRight := cR}],
          start := some t0}]) B).2
      = reopen cL cR (seqsUpdate t1 ls B).2 := by
  rw [seqsUpdate_append_snd]
  simp only [seqsUpdate, Sequence.update, stepsUpdate, StepData.update]
  rw [if_neg (show ¬(t1 - t0 < 120) by omega)]
  simp

theorem phases_keep_reopened (X : RoboEyes) (now rb rix riy rii : Int)
    (hab : X.autoblinker = false)
    (hl : X.eye_l_height_next = X.eye_l_height_default)
    (hr : X.eye_r_height_next = X.eye_r_height_default)
    (hol : X.eye_l_open = true) (hor : X.eye_r_open = true) :
    (laughPhase (confusePhase (winkRestorePhase
        (interpPhase (idlePhase (autoBlinkPhase X now rb) now rix riy rii)) now) now)
      now).eye_l_height_next = X.eye_l_height_default ∧
    (laughPhase (confusePhase (winkRestorePhase
        (interpPhase (idlePhase (autoBlinkPhase X now rb) now rix riy rii)) now) now)
      now).eye_r_height_next = X.eye_r_height_default ∧
    (laughPhase (confusePhase (winkRestorePhase
        (interpPhase (idlePhase (autoBlinkPhase X now rb) now rix riy rii)) now) now)
      now).eye_l_open = true ∧
    (laughPhase (confusePhase (winkRestorePhase
        (interpPhase (idlePhase (autoBlinkPhase X now rb) now rix riy rii)) now) now)
      now).eye_r_open = true := by
  rw [autoBlinkPhase_off X now rb hab]
  obtain ⟨-, -, -, il, -, ir, ild, ird, iol, ior, -, -, -, -, -⟩ :=
    idlePhase_fields X now rix riy rii
  obtain ⟨-, -, -, jl, jr, jld, jrd, jol, jor, -, -, -⟩ :=
    interpPhase_lerps (idlePhase X now rix riy rii)
  have hZl : (interpPhase (idlePhase X now rix riy rii)).eye_l_height_next =
      (interpPhase (idlePhase X now rix riy rii)).eye_l_height_default := by
    rw [jl, jld, il, ild, hl]
  have hZr : (interpPhase (idlePhase X now rix riy rii)).eye_r_height_next =
      (interpPhase (idlePhase X now rix riy rii)).eye_r_height_default := by
    rw [jr, jrd, ir, ird, hr]
  have hZol : (interpPhase (idlePhase X now rix riy rii)).eye_l_open = true := by
    rw [jol, iol, hol]
  have hZor : (interpPhase (idlePhase X now rix riy rii)).eye_r_open = true := by
    rw [jor, ior, hor]
  obtain ⟨w1, w2, w3, w4⟩ :=
    winkRestorePhase_at_defaults (interpPhase (idlePhase X now rix riy rii)) now hZl hZr hZol hZor
  obtain ⟨-, -, -, -, -, -, -, -, cl, cr, -, -, col, cor, -⟩ :=
    confusePhase_fields (winkRestorePhase (interpPhase (idlePhase X now rix riy rii)) now) now
  obtain ⟨-, -, -, -, -, -, -, -, ll, lr, -, -, lol, lor, -⟩ :=
    laughPhase_fields
      (confusePhase (winkRestorePhase (interpPhase (idlePhase X now rix riy rii)) now) now) now
  refine ⟨?_, ?_, ?_, ?_⟩
  · rw [ll, cl, w1, jld, ild]
  · rw [lr, cr, w2, jrd, ird]
  · rw [lol, col, w3]
  · rw [lor, cor, w4]

theorem update_after_scheduled_reopen (X : RoboEyes) (ls : List Sequence)
    (t0 t1 rb rix riy rii : Int)
    (hseq : X.sequences = ls ++
      [{name := "blink",
        steps := [{done := false, ms_timing := 120, cbLeft := true, cbRight := true}],
        start := some t0}])
    (hcy : X.cyclops = false) (hab : X.autoblinker = false) (hd : 120 ≤ t1 - t0) :
    (X.update t1 rb rix riy rii).eye_l_height_next = X.eye_l_height_default ∧
    (X.update t1 rb rix riy rii).eye_r_height_next = X.eye_r_height_default ∧
    (X.update t1 rb rix riy rii).eye_l_open = true ∧
    (X.update t1 rb rix riy rii).eye_r_open = true := by
  have hp2 : (seqsUpdate t1 X.sequences X).2 = reopen true true (seqsUpdate t1 ls X).2 := by
    rw [hseq]
    exact seqsUpdate_fires_last ls X true true t0 t1 hd
  obtain ⟨-, -, -, -, -, -, -, -, hMld, -, hMrd, -, -, -, -, -, -, -, -, -, -, -, -, -, -, -, -, -, -, -, -, -, -, -, -, -, -, -, -, -, -, -, -, -, -, -, -, -, hMcy0, -, -, -, -, -, -, -⟩ :=
    seqFrozen_elim (seqsUpdate_frozen t1 ls X)
  have hMcy : (seqsUpdate t1 ls X).2.cyclops = false := hMcy0.trans hcy
  have hMld' : (seqsUpdate t1 ls X).2.eye_l_height_default = X.eye_l_height_default := hMld
  have hMrd' : (seqsUpdate t1 ls X).2.eye_r_height_default = X.eye_r_height_default := hMrd
  have hR1 : (reopen true true (seqsUpdate t1 ls X).2).eye_l_height_next =
      X.eye_l_height_default := by simp [reopen, hMcy, hMld']
  have hR2 : (reopen true true (seqsUpdate t1 ls X).2).eye_r_height_next =
      X.eye_r_height_default := by simp [reopen, hMcy, hMrd']
  have hR3 : (reopen true true (seqsUpdate t1 ls X).2).eye_l_open = true := by
    simp [reopen, hMcy]
  have hR4 : (reopen true true (seqsUpdate t1 ls X).2).eye_r_open = true := by
    simp [reopen, hMcy]
  have hA1 : (applySequences X t1).eye_l_height_next = X.eye_l_height_default := by
    show (seqsUpdate t1 X.sequences X).2.eye_l_height_next = _
    rw [hp2]; exact hR1
  have hA2 : (applySequences X t1).eye_r_height_next = X.eye_r_height_default := by
    show (seqsUpdate t1 X.sequences X).2.eye_r_height_next = _
    rw [hp2]; exact hR2
  have hA3 : (applySequences X t1).eye_l_open = true := by
    show (seqsUpdate t1 X.sequences X).2.eye_l_open = _
    rw [hp2]; exact hR3
  have hA4 : (applySequences X t1).eye_r_open = true := by
    show (seqsUpdate t1 X.sequences X).2.eye_r_open = _
    rw [hp2]; exact hR4
  obtain ⟨-, -, -, -, -, -, -, -, hAld, -, hArd, -, -, -, -, -, -, -, -, -, -, -, -, -, -, -, -, -, -, -, -, -, -, -, -, -, -, -, -, -, -, -, -, -, -, -, -, -, -, -, hAab0, -, -, -, -, -⟩ :=
    seqFrozen_elim (applySequences_frozen X t1)
  have hAab : (applySequences X t1).autoblinker = false := hAab0.trans hab
  simp only [RoboEyes.update]
  by_cases hcc : t1 - (applySequences X t1).fps_timer < (applySequences X t1).frame_interval
  · rw [if_pos hcc]
    exact ⟨hA1, hA2, hA3, hA4⟩
  · rw [if_neg hcc]
    have hres := phases_keep_reopened {applySequences X t1 with fps_timer := t1}
        t1 rb rix riy rii hAab (hA1.trans hAld.symm) (hA2.trans hArd.symm) hA3 hA4
    exact ⟨hres.1.trans hAld, hres.2.1.trans hArd, hres.2.2.1, hres.2.2.2⟩

/-- C5: triggering `blink(left=True, right=True)` (cyclops off) immediately
sets both height targets to the minimum 1 and marks both eyes closed; one
`update` call made at least 120ms later (whether or not that call is
frame-processed — sequences always run) restores each height target to the
eye's current default and marks both eyes open; blinking only the left eye
leaves the right eye's target and open flag untouched.  Auto-blink must be
off, or it could re-close the eyes in the very same tick. -/
theorem C5_blink_round_trip (s : RoboEyes) (t0 t1 rb rix riy rii : Int)
    (hcy : s.cyclops = false) (hab : s.autoblinker = false) (hd : 120 ≤ t1 - t0) :
    (blink s (some true) (some true) t0).eye_l_height_next = 1 ∧
    (blink s (some true) (some true) t0).eye_r_height_next = 1 ∧
    (blink s (some true) (some true) t0).eye_l_open = false ∧
    (blink s (some true) (some true) t0).eye_r_open = false ∧
    ((blink s (some true) (some true) t0).update t1 rb rix riy rii).eye_l_height_next =
      s.eye_l_height_default ∧
    ((blink s (some true) (some true) t0).update t1 rb rix riy rii).eye_r_height_next =
      s.eye_r_height_default ∧
    ((blink s (some true) (some true) t0).update t1 rb rix riy rii).eye_l_open = true ∧
    ((blink s (some true) (some true) t0).update t1 rb rix riy rii).eye_r_open = true ∧
    (blink s (some true) none t0).eye_r_height_next = s.eye_r_height_next ∧
    (blink s (some true) none t0).eye_r_open = s.eye_r_open := by
  have hsb : blink s (some true) (some true) t0 =
      {s with eye_l_height_next := 1, eye_r_height_next := 1,
              eye_l_open := false, eye_r_open := false,
              sequences := s.sequences ++
                [{name := "blink",
                  steps := [{done := false, ms_timing := 120, cbLeft := true, cbRight := true}],
                  start := some t0}]} := by
    simp [blink, pyTruthy, scheduleOpen, hcy]
  have hsb2 : blink s (some true) none t0 =
      {s with eye_l_height_next := 1, eye_l_open := false,
              sequences := s.sequences ++
                [{name := "blink",
                  steps := [{done := false, ms_timing := 120, cbLeft := true, cbRight := false}],
                  start := some t0}]} := by
    simp [blink, pyTruthy, scheduleOpen]
  have hseq : (blink s (some true) (some true) t0).sequences = s.sequences ++
      [{name := "blink",
        steps := [{done := false, ms_timing := 120, cbLeft := true, cbRight := true}],
        start := some t0}] := by rw [hsb]
  have hXcy : (blink s (some true) (some true) t0).cyclops = false := by rw [hsb]; exact hcy
  have hXab : (blink s (some true) (some true) t0).autoblinker = false := by rw [hsb]; exact hab
  have hcore := update_after_scheduled_reopen (blink s (some true) (some true) t0)
    s.sequences t0 t1 rb rix riy rii hseq hXcy hXab hd
  exact ⟨by rw [hsb], by rw [hsb], by rw [hsb], by rw [hsb],
    hcore.1.trans (by rw [hsb]), hcore.2.1.trans (by rw [hsb]),
    hcore.2.2.1, hcore.2.2.2, by rw [hsb2], by rw [hsb2]⟩

/-- Witness for C5 on a freshly initialized engine (default height 80):
blink at 0ms, tick at 130ms, target back at 80 and the eye open. -/
theorem C5_witness :
    (blink (init 400 200 30 0) (some true) (some true) 0).eye_l_height_next = 1 ∧
    ((blink (init 400 200 30 0) (some true) (some true) 0).update 130 0 0 0 0).eye_l_height_next = 80 ∧
    ((blink (init 400 200 30 0) (some true) (some true) 0).update 130 0 0 0 0).eye_l_open = true :=
  ⟨(C5_blink_round_trip (init 400 200 30 0) 0 130 0 0 0 0 rfl rfl (by norm_num)).1,
   (C5_blink_round_trip (init 400 200 30 0) 0 130 0 0 0 0 rfl rfl (by norm_num)).2.2.2.2.1,
   (C5_blink_round_trip (init 400 200 30 0) 0 130 0 0 0 0 rfl rfl (by norm_num)).2.2.2.2.2.2.1⟩

theorem one_le_lerp {a b : Int} (ha : 1 ≤ a) (hb : 1 ≤ b) : 1 ≤ lerp a b := by
  have h := lerp_bounds a b; omega

theorem reopen_invL (l r : Bool) (s : RoboEyes) (h : heightInvL s) :
    heightInvL (reopen l r s) := by
  simp only [reopen, heightInvL] at *
  split <;> split <;> simp_all

theorem reopen_invR (l r : Bool) (s : RoboEyes) (h : heightInvR s) :
    heightInvR (reopen l r s) := by
  simp only [reopen, heightInvR] at *
  split <;> split <;> simp_all

theorem stepUpdate_invL (st : StepData) (t0 now : Int) (s : RoboEyes)
    (h : heightInvL s) : heightInvL (st.update t0 now s).2 := by
  unfold StepData.update
  split
  · exact h
  · split
    · exact h
    · exact reopen_invL st.cbLeft st.cbRight s h

theorem stepUpdate_invR (st : StepData) (t0 now : Int) (s : RoboEyes)
    (h : heightInvR s) : heightInvR (st.update t0 now s).2 := by
  unfold StepData.update
  split
  · exact h
  · split
    · exact h
    · exact reopen_invR st.cbLeft st.cbRight s h

theorem stepsUpdate_invL (t0 now : Int) :
    ∀ (l : List StepData) (s : RoboEyes), heightInvL s →
      heightInvL (stepsUpdate t0 now l s).2
  | [], _, h => h
  | st :: rest, s, h => by
      simp only [stepsUpdate]
      exact stepsUpdate_invL t0 now rest _ (stepUpdate_invL st t0 now s h)

theorem stepsUpdate_invR (t0 now : Int) :
    ∀ (l : List StepData) (s : RoboEyes), heightInvR s →
      heightInvR (stepsUpdate t0 now l s).2
  | [], _, h => h
  | st :: rest, s, h => by
      simp only [stepsUpdate]
      exact stepsUpdate_invR t0 now rest _ (stepUpdate_invR st t0 now s h)

theorem sequenceUpdate_invL (sq : Sequence) (now : Int) (s : RoboEyes)
    (h : heightInvL s) : heightInvL (sq.update now s).2 := by
  cases hs : sq.start with
  | none => simpa [Sequence.update, hs] using h
  | some t0 =>
      simp only [Sequence.update, hs]
      exact stepsUpdate_invL t0 now sq.steps s h

theorem sequenceUpdate_invR (sq : Sequence) (now : Int) (s : RoboEyes)
    (h : heightInvR s) : heightInvR (sq.update now s).2 := by
  cases hs : sq.start with
  | none => simpa [Sequence.update, hs] using h
  | some t0 =>
      simp only [Sequence.update, hs]
      exact stepsUpdate_invR t0 now sq.steps s h

theorem seqsUpdate_invL (now : Int) :
    ∀ (l : List Sequence) (s : RoboEyes), heightInvL s →
      heightInvL (seqsUpdate now l s).2
  | [], _, h => h
  | sq :: rest, s, h => by
      simp only [seqsUpdate]
      exact seqsUpdate_invL now rest _ (sequenceUpdate_invL sq now s h)

theorem seqsUpdate_invR (now : Int) :
    ∀ (l : List Sequence) (s : RoboEyes), heightInvR s →
      heightInvR (seqsUpdate now l s).2
  | [], _, h => h
  | sq :: rest, s, h => by
      simp only [seqsUpdate]
      exact seqsUpdate_invR now rest _ (sequenceUpdate_invR sq now s h)

theorem applySequences_invL (s : RoboEyes) (now : Int) (h : heightInvL s) :
    heightInvL (applySequences s now) :=
  seqsUpdate_invL now s.sequences s h

theorem applySequences_invR (s : RoboEyes) (now : Int) (h : heightInvR s) :
    heightInvR (applySequences s now) :=
  seqsUpdate_invR now s.sequences s h

theorem blink_invL (s : RoboEyes) (l r : Option Bool) (t : Int)
    (h : heightInvL s) : heightInvL (blink s l r t) := by
  simp only [blink, scheduleOpen, heightInvL] at *
  split
  · simp_all
  · split <;> split <;> simp_all

theorem blink_invR (s : RoboEyes) (l r : Option Bool) (t : Int)
    (hc : s.cyclops = false) (h : heightInvR s) : heightInvR (blink s l r t) := by
  simp only [blink, scheduleOpen, heightInvR] at *
  split
  · simp_all
  · split <;> split <;> simp_all

theorem wink_invL (s s' : RoboEyes) (l r : Option Bool) (t : Int)
    (h : heightInvL s) (hok : wink s l r t = Except.ok s') : heightInvL s' := by
  simp only [wink] at hok
  split at hok
  · cases hok
  · rw [Except.ok.injEq] at hok
    subst hok
    simp only [heightInvL] at *
    split <;> split <;> simp_all

theorem wink_invR (s s' : RoboEyes) (l r : Option Bool) (t : Int)
    (h : heightInvR s) (hok : wink s l r t = Except.ok s') : heightInvR s' := by
  simp only [wink] at hok
  split at hok
  · cases hok
  · rw [Except.ok.injEq] at hok
    subst hok
    simp only [heightInvR] at *
    split <;> split <;> simp_all

theorem autoBlinkPhase_invL (s : RoboEyes) (now rb : Int) (h : heightInvL s) :
    heightInvL (autoBlinkPhase s now rb) := by
  simp only [autoBlinkPhase]
  split
  · exact blink_invL s none none now h
  · exact h

theorem autoBlinkPhase_invR (s : RoboEyes) (now rb : Int)
    (hc : s.cyclops = false) (h : heightInvR s) :
    heightInvR (autoBlinkPhase s now rb) := by
  simp only [autoBlinkPhase]
  split
  · exact blink_invR s none none now hc h
  · exact h

theorem idlePhase_invL (s : RoboEyes) (now rix riy rii : Int) (h : heightInvL s) :
    heightInvL (idlePhase s now rix riy rii) := by
  simp only [idlePhase]
  split
  · exact h
  · exact h

theorem idlePhase_invR (s : RoboEyes) (now rix riy rii : Int) (h : heightInvR s) :
    heightInvR (idlePhase s now rix riy rii) := by
  simp only [idlePhase]
  split
  · exact h
  · exact h

theorem interpPhase_invL (s : RoboEyes) (h : heightInvL s) :
    heightInvL (interpPhase s) :=
  ⟨h.1, one_le_lerp h.2.1 h.2.2, h.2.2⟩

theorem interpPhase_invR (s : RoboEyes) (h : heightInvR s) :
    heightInvR (interpPhase s) :=
  ⟨h.1, one_le_lerp h.2.1 h.2.2, h.2.2⟩

theorem winkRestorePhase_invL (s : RoboEyes) (now : Int) (h : heightInvL s) :
    heightInvL (winkRestorePhase s now) := by
  simp only [winkRestorePhase, heightInvL] at *
  split
  · split <;> split <;> simp_all
  · exact h

theorem winkRestorePhase_invR (s : RoboEyes) (now : Int) (h : heightInvR s) :
    heightInvR (winkRestorePhase s now) := by
  simp only [winkRestorePhase, heightInvR] at *
  split
  · split <;> split <;> simp_all
  · exact h

theorem confusePhase_invL (s : RoboEyes) (now : Int) (h : heightInvL s) :
    heightInvL (confusePhase s now) := by
  simp only [confusePhase, heightInvL] at *
  split
  · split <;> simp_all
  · exact h

theorem confusePhase_invR (s : RoboEyes) (now : Int) (h : heightInvR s) :
    heightInvR (confusePhase s now) := by
  simp only [confusePhase, heightInvR] at *
  split
  · split <;> simp_all
  · exact h

theorem laughPhase_invL (s : RoboEyes) (now : Int) (h : heightInvL s) :
    heightInvL (laughPhase s now) := by
  simp only [laughPhase, heightInvL] at *
  split
  · split <;> simp_all
  · exact h

theorem laughPhase_invR (s : RoboEyes) (now : Int) (h : heightInvR s) :
    heightInvR (laughPhase s now) := by
  simp only [laughPhase, heightInvR] at *
  split
  · split <;> simp_all
  · exact h

theorem update_invL (s : RoboEyes) (now rb rix riy rii : Int) (h : heightInvL s) :
    heightInvL (s.update now rb rix riy rii) := by
  simp only [RoboEyes.update]
  have hA := applySequences_invL s now h
  split
  · exact hA
  · exact laughPhase_invL _ now (confusePhase_invL _ now (winkRestorePhase_invL _ now
      (interpPhase_invL _ (idlePhase_invL _ now rix riy rii
        (autoBlinkPhase_invL _ now rb hA)))))

theorem update_invR (s : RoboEyes) (now rb rix riy rii : Int)
    (hc : s.cyclops = false) (h : heightInvR s) :
    heightInvR (s.update now rb rix riy rii) := by
  simp only [RoboEyes.update]
  have hA := applySequences_invR s now h
  obtain ⟨-, -, -, -, -, -, -, -, -, -, -, -, -, -, -, -, -, -, -, -, -, -, -, -, -, -, -, -, -, -, -, -, -, -, -, -, -, -, -, -, -, -, -, -, -, -, -, -, hAcy, -, -, -, -, -, -, -⟩ :=
    seqFrozen_elim (applySequences_frozen s now)
  split
  · exact hA
  · exact laughPhase_invR _ now (confusePhase_invR _ now (winkRestorePhase_invR _ now
      (interpPhase_invR _ (idlePhase_invR _ now rix riy rii
        (autoBlinkPhase_invR _ now rb (hAcy.trans hc) hA)))))

/-- C6 counterexample: `blink()` in cyclops mode sets
`eye_r_height_next = 0`, and seven ticks later the right eye's
`height_current` has interpolated all the way down to 0 — the claimed
invariant `height_current ≥ 1` for *every* eye fails (the left eye, the
one actually drawn in cyclops mode, is reopened by the 120ms step and
stays at 80). -/
theorem C6_counterexample :
    c6state.eye_r_height_next = 0 ∧
    ([100, 200, 300, 400, 500, 600, 700].foldl tick c6state).eye_r_height_current = 0 ∧
    ¬(1 ≤ ([100, 200, 300, 400, 500, 600, 700].foldl tick c6state).eye_r_height_current) ∧
    ([100, 200, 300, 400, 500, 600, 700].foldl tick c6state).eye_l_height_next = 80 ∧
    ([100, 200, 300, 400, 500, 600, 700].foldl tick c6state).eye_l_height_current = 79 := by
  decide

/-- C6 (amended): the floor `height_current ≥ 1` (together with the same
floor on the default and next heights) is preserved for the left eye by
every `update` tick, every `blink`, and every successful `wink`, in any
mode; for the right eye it is preserved whenever cyclops mode is off
(`blink()` with cyclops on instead writes a right height target of 0, as
the counterexample shows, and `eyes_height` can inject arbitrary values,
so the unconditional claim over all public operations fails). -/
theorem C6_height_floor_amended (s s' : RoboEyes) (now rb rix riy rii t : Int)
    (l r : Option Bool) :
    (heightInvL s → heightInvL (s.update now rb rix riy rii)) ∧
    (heightInvL s → heightInvL (blink s l r t)) ∧
    (heightInvL s → wink s l r t = Except.ok s' → heightInvL s') ∧
    (s.cyclops = false → heightInvR s → heightInvR (s.update now rb rix riy rii)) ∧
    (s.cyclops = false → heightInvR s → heightInvR (blink s l r t)) ∧
    (heightInvR s → wink s l r t = Except.ok s' → heightInvR s') :=
  ⟨fun h => update_invL s now rb rix riy rii h,
   fun h => blink_invL s l r t h,
   fun h hok => wink_invL s s' l r t h hok,
   fun hc h => update_invR s now rb rix riy rii hc h,
   fun hc h => blink_invR s l r t hc h,
   fun h hok => wink_invR s s' l r t h hok⟩

/-- Witness for C6 (amended): the freshly initialized engine satisfies
both height floors, and one processed tick preserves them. -/
theorem C6_witness :
    heightInvL (RoboEyes.update (init 400 200 30 0) 100 0 0 0 0) ∧
    heightInvR (RoboEyes.update (init 400 200 30 0) 100 0 0 0 0) :=
  ⟨(C6_height_floor_amended (init 400 200 30 0) (init 400 200 30 0) 100 0 0 0 0 0
      none none).1 ⟨by decide, by decide, by decide⟩,
   (C6_height_floor_amended (init 400 200 30 0) (init 400 200 30 0) 100 0 0 0 0 0
      none none).2.2.2.1 rfl ⟨by decide, by decide, by decide⟩⟩

end RoboPy
